import Mathlib

/-!
Verification of the LuxeLayer storefront client (cart store, catalog filter,
checkout flow, product-detail carousel) against its design document.

The TypeScript source is shallowly embedded: JavaScript strings become `String`,
`string.trim()` / `string.toLowerCase()` / `string.includes(q)` become the
list-based functions `jsTrim` / `toLowerCase` / `stringIncludes`, JS numbers
used as counts become `Int`, and each React state update becomes an explicit
function from old state to new state.
-/

/-- Embedding of JavaScript `String.prototype.trim`: drop whitespace from both
ends of the character sequence. -/
def jsTrim (s : String) : String :=
  String.mk (((s.data.dropWhile Char.isWhitespace).reverse.dropWhile Char.isWhitespace).reverse)

/-- Embedding of JavaScript `String.prototype.toLowerCase`, mapping each
character to lower case. -/
def toLowerCase (s : String) : String :=
  String.mk (s.data.map Char.toLower)

/-- Boolean test that the first character list is a prefix of the second. -/
def charsStartsWith : List Char → List Char → Bool
  | [], _ => true
  | _ :: _, [] => false
  | a :: as, b :: bs => a == b && charsStartsWith as bs

/-- Boolean test that the first character list occurs contiguously inside the
second. -/
def charsIncludes (pat : List Char) : List Char → Bool
  | [] => charsStartsWith pat []
  | b :: bs => charsStartsWith pat (b :: bs) || charsIncludes pat bs

/-- Embedding of JavaScript `s.includes(query)`: substring containment. -/
def stringIncludes (s query : String) : Bool :=
  charsIncludes query.data s.data

/-- Product record as declared in `src/App.tsx`. -/
structure Product where
  id : String
  name : String
  category : String
  price : Int
  description : String
  rating : Int
  reviews : Int
  images : List String
deriving Repr, DecidableEq

/-- Cart line item as declared in `src/store/cartStore.ts`: a product together
with its quantity. -/
structure CartItem where
  product : Product
  quantity : Int
deriving Repr, DecidableEq

/-- Embedding of the cart store's `addItem` (`src/store/cartStore.ts`): if some
line already holds this product id, bump the quantity of every matching line by
one via `map`; otherwise append a fresh line with quantity 1. -/
def addItem (items : List CartItem) (product : Product) : List CartItem :=
  if items.any (fun item => item.product.id == product.id) then
    items.map (fun item =>
      if item.product.id == product.id then
        { item with quantity := item.quantity + 1 }
      else item)
  else
    items ++ [{ product := product, quantity := 1 }]

/-- Embedding of the cart store's `updateQuantity`: set the quantity of every
line matching the product id, then drop all lines whose quantity is not
positive. -/
def updateQuantity (items : List CartItem) (productId : String) (quantity : Int) :
    List CartItem :=
  (items.map (fun item =>
    if item.product.id == productId then { item with quantity := quantity }
    else item)).filter (fun item => decide (0 < item.quantity))

/-- Embedding of the cart store's `resetCart`: replace the items with the empty
list. -/
def resetCart (_items : List CartItem) : List CartItem := []

/-- The cart-mutating actions exposed by the store. -/
inductive CartAction where
  | add (p : Product)
  | update (productId : String) (quantity : Int)
  | reset
deriving Repr, DecidableEq

/-- Apply one store action to the current list of cart lines. -/
def applyCartAction (items : List CartItem) : CartAction → List CartItem
  | .add p => addItem items p
  | .update pid q => updateQuantity items pid q
  | .reset => resetCart items

/-- Run a sequence of store actions from a starting cart. -/
def runCartActions (items : List CartItem) (actions : List CartAction) : List CartItem :=
  actions.foldl applyCartAction items

/-- The cart invariant from the design document: no two lines share a product
identifier and every quantity is at least 1. -/
def CartInv (items : List CartItem) : Prop :=
  (items.map (fun item => item.product.id)).Nodup ∧
    ∀ item ∈ items, 1 ≤ item.quantity

instance (items : List CartItem) : Decidable (CartInv items) := by
  unfold CartInv; infer_instance

/-- Embedding of `filteredProducts` from `src/App.tsx`: the memoised filter over
the product list, combining a category test with a case-insensitive substring
test of the trimmed search term against name or description. -/
def filteredProducts (products : List Product) (activeCategory searchTerm : String) :
    List Product :=
  let query := toLowerCase (jsTrim searchTerm)
  products.filter (fun product =>
    (activeCategory == "All" || product.category == activeCategory) &&
      (query == "" || stringIncludes (toLowerCase product.name) query ||
        stringIncludes (toLowerCase product.description) query))

/-- Case-insensitive substring relation, written from the specification: the
pattern, lower-cased, occurs contiguously in the lower-cased text. -/
def CaseInsensitiveSubstring (pat text : String) : Prop :=
  (toLowerCase pat).data <:+: (toLowerCase text).data

/-- Predicate written from the specification sentence for the catalog filter:
the selected category is the wildcard or matches exactly, and the trimmed
search term is empty or a case-insensitive substring of name or description. -/
def MatchesSpecFilter (activeCategory searchTerm : String) (product : Product) : Prop :=
  (activeCategory = "All" ∨ product.category = activeCategory) ∧
    (jsTrim searchTerm = "" ∨ CaseInsensitiveSubstring (jsTrim searchTerm) product.name ∨
      CaseInsensitiveSubstring (jsTrim searchTerm) product.description)

instance (activeCategory searchTerm : String) (product : Product) :
    Decidable (MatchesSpecFilter activeCategory searchTerm product) := by
  unfold MatchesSpecFilter CaseInsensitiveSubstring; infer_instance

/-- The fixed size options rendered by the checkout size selector
(`src/components/CartCheckout.tsx`). -/
def sizes : List String := ["XS", "S", "M", "L", "XL"]

/-- The initial and post-success value of the size field, `sizes[2]`. -/
def defaultSize : String := sizes.getD 2 ""

/-- The delivery details passed to the `onSubmitOrder` callback. -/
structure CheckoutDetails where
  fullName : String
  phone : String
  address : String
  size : String
deriving Repr, DecidableEq

/-- The local state of the `CartCheckout` component: the four form fields plus
the error banner and the submitting flag. -/
structure CheckoutForm where
  fullName : String
  phone : String
  address : String
  size : String
  error : Option String
  submitting : Bool
deriving Repr, DecidableEq

/-- The checkout form state on mount: empty text fields, size `sizes[2]`, no
error, not submitting. -/
def initialForm : CheckoutForm :=
  { fullName := "", phone := "", address := "", size := defaultSize,
    error := none, submitting := false }

/-- Outcome of the order-submission network call, as observed by the `catch`
block: success, or a failure optionally carrying a backend-supplied message. -/
inductive NetResult where
  | success
  | failure (backendMessage : Option String)
deriving Repr, DecidableEq

/-- One entry of the order payload sent to `POST /api/orders`. -/
structure OrderItem where
  productId : String
  quantity : Int
deriving Repr, DecidableEq

/-- The JSON body sent to the order-creation endpoint. -/
structure OrderPayload where
  fullName : String
  phone : String
  address : String
  size : String
  items : List OrderItem
deriving Repr, DecidableEq

/-- Everything `handleSubmit` does, made explicit: the resulting form state,
the cart lines as the handler leaves them, whether a network request was
issued and with which payload, and the list of `onSubmitOrder` invocations. -/
structure SubmitResult where
  form : CheckoutForm
  cartItems : List CartItem
  networkCalled : Bool
  payload : Option OrderPayload
  callbackInvocations : List CheckoutDetails
deriving Repr, DecidableEq

/-- Embedding of `handleSubmit` in `src/components/CartCheckout.tsx`. The
guard rejects when any of the four fields trims to empty; otherwise the error
is cleared, the payload is built from the cart, and the network outcome decides
between resetting the fields (after invoking `onSubmitOrder` with the trimmed
name, phone and address and the size as held) and setting the generic error
message. The handler itself never touches the cart lines. -/
def handleSubmit (form : CheckoutForm) (items : List CartItem) (net : NetResult) :
    SubmitResult :=
  if jsTrim form.fullName == "" || jsTrim form.phone == "" ||
      jsTrim form.address == "" || jsTrim form.size == "" then
    { form := { form with
        error := some "Please fill in all required details before submitting." },
      cartItems := items, networkCalled := false, payload := none,
      callbackInvocations := [] }
  else
    let payload : OrderPayload :=
      { fullName := jsTrim form.fullName, phone := jsTrim form.phone,
        address := jsTrim form.address, size := form.size,
        items := items.map (fun item =>
          { productId := item.product.id, quantity := item.quantity }) }
    match net with
    | .success =>
      { form := { form with
          fullName := "", phone := "", address := "", size := defaultSize,
          error := none, submitting := false },
        cartItems := items, networkCalled := true, payload := some payload,
        callbackInvocations :=
          [{ fullName := jsTrim form.fullName, phone := jsTrim form.phone,
             address := jsTrim form.address, size := form.size }] }
    | .failure _ =>
      { form := { form with
          error := some "Failed to submit order. Please try again.",
          submitting := false },
        cartItems := items, networkCalled := true, payload := some payload,
        callbackInvocations := [] }

/-- Embedding of the `onSubmitOrder` prop wired in `src/App.tsx` (lines
325-327): its body is empty, so it performs no cart-store action at all. -/
def appOnSubmitOrder (_details : CheckoutDetails) : List CartAction := []

/-- The cart store state visible to the checkout wiring: the line items and the
confirmation banner. `confirmationMessage` is only ever written by
`setConfirmationMessage(null)` in `handleAddToCart`; nothing in the repository
sets it to a non-null value. -/
structure StoreState where
  items : List CartItem
  confirmationMessage : Option String
deriving Repr, DecidableEq

/-- The submission flow as wired in `src/App.tsx`: run `handleSubmit` on the
store's items, then run the store actions of the caller-supplied
`onSubmitOrder` callback for each invocation. The store's confirmation banner
is not written anywhere on this path. -/
def wiredSubmit (form : CheckoutForm) (store : StoreState) (net : NetResult) :
    CheckoutForm × StoreState :=
  let r := handleSubmit form store.items net
  ( r.form,
    { store with
        items := r.callbackInvocations.foldl
          (fun it d => runCartActions it (appOnSubmitOrder d)) r.cartItems } )

/-- The checkout confirmation banner renders exactly when the store's
`confirmationMessage` is non-null (`{confirmationMessage && ...}`). -/
def confirmationShown (store : StoreState) : Bool :=
  store.confirmationMessage.isSome

/-- Embedding of the displayed error in `handleAddProduct`'s catch block
(`src/components/AdminDashboard.tsx`): `err.response?.data?.message` when that
is present and truthy, otherwise the generic fallback. -/
def addProductErrorMessage (backendMessage : Option String) : String :=
  match backendMessage with
  | some msg => if msg == "" then "Failed to add product" else msg
  | none => "Failed to add product"

/-- The autoplay interval of the detail-overlay carousel, in milliseconds. -/
def AUTOPLAY_INTERVAL : Nat := 4000

/-- Local state of `ProductDetailModal`: the active image index, the autoplay
flag, and whether the overlay is open. -/
structure ModalState where
  activeIndex : Nat
  isAutoplaying : Bool
  isOpen : Bool
deriving Repr, DecidableEq

/-- The events driving the detail overlay: (re)opening, one firing of the
4-second interval timer, the three manual navigations, the autoplay toggle,
and closing. -/
inductive ModalEvent where
  | openModal
  | tick
  | nextSlide
  | prevSlide
  | goToSlide (i : Nat)
  | toggleAutoplay
  | closeModal
deriving Repr, DecidableEq

/-- Embedding of `ProductDetailModal`'s state updates for a product with `n`
images. Opening resets index and autoplay; the interval timer only exists (and
so a tick only advances) while open, autoplaying and `n > 1`; the manual
navigations set the index and clear the autoplay flag. -/
def modalStep (n : Nat) (s : ModalState) : ModalEvent → ModalState
  | .openModal => { s with activeIndex := 0, isAutoplaying := true, isOpen := true }
  | .tick =>
    if s.isOpen && s.isAutoplaying && decide (1 < n) then
      { s with activeIndex := (s.activeIndex + 1) % n }
    else s
  | .nextSlide => { s with activeIndex := (s.activeIndex + 1) % n, isAutoplaying := false }
  | .prevSlide =>
    { s with
        activeIndex := if s.activeIndex == 0 then n - 1 else s.activeIndex - 1,
        isAutoplaying := false }
  | .goToSlide i => { s with activeIndex := i, isAutoplaying := false }
  | .toggleAutoplay => { s with isAutoplaying := !s.isAutoplaying }
  | .closeModal => { s with isOpen := false }

/-- Run a sequence of overlay events. -/
def runModalEvents (n : Nat) (s : ModalState) (events : List ModalEvent) : ModalState :=
  events.foldl (modalStep n) s

/-- The carousel navigation controls render exactly when `images.length > 1`. -/
def carouselControlsShown (n : Nat) : Bool :=
  decide (1 < n)

/-- The user-interface events that can change the checkout form state: typing
into the three text fields, picking one of the five rendered size options
(by index into `sizes`; an out-of-range index leaves the default), and
submitting with a given cart and network outcome. -/
inductive FormEvent where
  | setFullName (s : String)
  | setPhone (s : String)
  | setAddress (s : String)
  | selectSize (i : Nat)
  | submit (items : List CartItem) (net : NetResult)
deriving Repr, DecidableEq

/-- Apply one user-interface event to the checkout form state. -/
def applyFormEvent (f : CheckoutForm) : FormEvent → CheckoutForm
  | .setFullName s => { f with fullName := s }
  | .setPhone s => { f with phone := s }
  | .setAddress s => { f with address := s }
  | .selectSize i => { f with size := sizes.getD i defaultSize }
  | .submit items net => (handleSubmit f items net).form

/-- Run a sequence of user-interface events from a starting form state. -/
def runFormEvents (f : CheckoutForm) (events : List FormEvent) : CheckoutForm :=
  events.foldl applyFormEvent f

/-- The entry guard of `handleSubmit` rejects exactly when one of the four
fields trims to the empty string. -/
def validationRejects (f : CheckoutForm) : Bool :=
  jsTrim f.fullName == "" || jsTrim f.phone == "" ||
    jsTrim f.address == "" || jsTrim f.size == ""

/-- Sample product used to exercise the definitions at concrete inputs. -/
def productA : Product :=
  { id := "a1", name := "Monogram Jacket", category := "Streetwear", price := 40,
    description := "A relaxed bomber jacket", rating := 4, reviews := 12,
    images := ["a-front", "a-back", "a-detail"] }

/-- Second sample product, with a distinct identifier. -/
def productB : Product :=
  { id := "b2", name := "Silk Scarf", category := "Evening Luxe", price := 15,
    description := "A lightweight evening scarf", rating := 5, reviews := 3,
    images := ["b-front"] }

/-- Sample cart line holding `productB` with quantity 2. -/
def sampleLineB : CartItem := { product := productB, quantity := 2 }

/-- Sample filled-in checkout form with all fields valid. -/
def sampleFilledForm : CheckoutForm :=
  { fullName := " Elena Marques ", phone := "555-0102", address := "123 Atelier Lane",
    size := "M", error := none, submitting := true }

/-- Sample store state: one line, no confirmation banner. -/
def sampleStore : StoreState :=
  { items := [sampleLineB], confirmationMessage := none }

/-- The fully trimmed delivery details of a form, as the specification words
them. -/
def trimmedDetails (f : CheckoutForm) : CheckoutDetails :=
  { fullName := jsTrim f.fullName, phone := jsTrim f.phone,
    address := jsTrim f.address, size := jsTrim f.size }

theorem map_if_id (l : List CartItem) (g : CartItem → CartItem) (pid : String)
    (h : ∀ item ∈ l, item.product.id ≠ pid) :
    l.map (fun item => if item.product.id == pid then g item else item) = l := by
  induction l with
  | nil => rfl
  | cons a t ih =>
    have hb : (a.product.id == pid) = false := by
      simp only [beq_eq_false_iff_ne, ne_eq]
      exact h a (List.mem_cons_self a t)
    simp only [List.map_cons, hb, Bool.false_eq_true, if_false]
    rw [ih (fun x hx => h x (List.mem_cons_of_mem a hx))]

theorem nodup_split_ids {pre post : List CartItem} {x : CartItem}
    (h : ((pre ++ x :: post).map (fun item => item.product.id)).Nodup) :
    (∀ y ∈ pre, y.product.id ≠ x.product.id) ∧
      ∀ y ∈ post, y.product.id ≠ x.product.id := by
  simp only [List.map_append, List.map_cons, List.nodup_append, List.nodup_cons] at h
  obtain ⟨-, ⟨hx, -⟩, hdisj⟩ := h
  constructor
  · intro y hy heq
    exact hdisj (List.mem_map_of_mem _ hy) (by rw [heq]; exact List.mem_cons_self _ _)
  · intro y hy heq
    exact hx (by rw [← heq]; exact List.mem_map_of_mem _ hy)

theorem map_if_split (pre post : List CartItem) (x : CartItem) (pid : String)
    (g : CartItem → CartItem)
    (hpre : ∀ y ∈ pre, y.product.id ≠ pid) (hpost : ∀ y ∈ post, y.product.id ≠ pid)
    (hx : x.product.id = pid) :
    (pre ++ x :: post).map
        (fun item => if item.product.id == pid then g item else item)
      = pre ++ g x :: post := by
  rw [List.map_append, List.map_cons, map_if_id pre g pid hpre, map_if_id post g pid hpost]
  simp [hx]

theorem addItem_absent (items : List CartItem) (p : Product)
    (h : ∀ item ∈ items, item.product.id ≠ p.id) :
    addItem items p = items ++ [{ product := p, quantity := 1 }] := by
  have hany : items.any (fun item => item.product.id == p.id) = false := by
    simp only [List.any_eq_false, beq_iff_eq]
    exact fun x hx => h x hx
  unfold addItem
  rw [hany]
  simp

theorem addItem_bump (pre post : List CartItem) (x : CartItem) (p : Product)
    (hpre : ∀ y ∈ pre, y.product.id ≠ p.id) (hpost : ∀ y ∈ post, y.product.id ≠ p.id)
    (hx : x.product.id = p.id) :
    addItem (pre ++ x :: post) p
      = pre ++ { x with quantity := x.quantity + 1 } :: post := by
  have hany : (pre ++ x :: post).any (fun item => item.product.id == p.id) = true := by
    simp only [List.any_eq_true]
    exact ⟨x, by simp, by simp [hx]⟩
  unfold addItem
  rw [hany]
  simp only [if_true]
  exact map_if_split pre post x p.id _ hpre hpost hx

theorem filter_pos_eq_self (l : List CartItem) (hq : ∀ y ∈ l, 1 ≤ y.quantity) :
    l.filter (fun item => decide (0 < item.quantity)) = l := by
  rw [List.filter_eq_self]
  intro a ha
  simp only [decide_eq_true_eq]
  exact lt_of_lt_of_le Int.zero_lt_one (hq a ha)

theorem updateQuantity_absent (items : List CartItem) (pid : String) (q : Int)
    (h : ∀ item ∈ items, item.product.id ≠ pid)
    (hq : ∀ item ∈ items, 1 ≤ item.quantity) :
    updateQuantity items pid q = items := by
  unfold updateQuantity
  rw [map_if_id items _ pid h, filter_pos_eq_self items hq]

theorem updateQuantity_set (pre post : List CartItem) (x : CartItem) (pid : String)
    (q : Int)
    (hpre : ∀ y ∈ pre, y.product.id ≠ pid) (hpost : ∀ y ∈ post, y.product.id ≠ pid)
    (hx : x.product.id = pid)
    (hqpre : ∀ y ∈ pre, 1 ≤ y.quantity) (hqpost : ∀ y ∈ post, 1 ≤ y.quantity) :
    updateQuantity (pre ++ x :: post) pid q
      = pre ++ (if 0 < q then [{ x with quantity := q }] else []) ++ post := by
  unfold updateQuantity
  rw [map_if_split pre post x pid _ hpre hpost hx]
  rw [List.filter_append, List.filter_cons]
  rw [filter_pos_eq_self pre hqpre, filter_pos_eq_self post hqpost]
  by_cases hq : 0 < q
  · simp [hq]
  · simp [hq]

/-- C1: for every cart satisfying the cart invariant and every product `p`,
`addItem p` increments the quantity of the existing line for `p.id` by one,
leaving all other lines and their order unchanged, when such a line exists;
otherwise it appends the new line `(p, 1)` at the end; and adding the same
product twice to a cart without it yields one line with quantity 2, never
two lines. -/
theorem claim_C1_addItem (items : List CartItem) (p : Product) (hinv : CartInv items) :
    ((∀ item ∈ items, item.product.id ≠ p.id) →
      addItem items p = items ++ [{ product := p, quantity := 1 }]) ∧
    (∀ pre x post, items = pre ++ x :: post → x.product.id = p.id →
      addItem items p = pre ++ { x with quantity := x.quantity + 1 } :: post) ∧
    ((∀ item ∈ items, item.product.id ≠ p.id) →
      addItem (addItem items p) p = items ++ [{ product := p, quantity := 2 }]) := by
  refine ⟨fun h => addItem_absent items p h, ?_, ?_⟩
  · intro pre x post hsplit hx
    subst hsplit
    obtain ⟨hpre, hpost⟩ := nodup_split_ids hinv.1
    exact addItem_bump pre post x p (fun y hy => hx ▸ hpre y hy)
      (fun y hy => hx ▸ hpost y hy) hx
  · intro h
    rw [addItem_absent items p h]
    have h2 : addItem (items ++ [{ product := p, quantity := 1 }]) p
        = items ++ [{ product := p, quantity := 1 + 1 }] :=
      addItem_bump items [] { product := p, quantity := 1 } p h
        (by intro y hy; simp at hy) rfl
    rw [h2]
    norm_num

/-- Concrete instance of the C1 theorem: adding `productA` twice to a cart
holding only a `productB` line yields exactly one `productA` line, of
quantity 2, appended after the untouched `productB` line. -/
theorem claim_C1_addItem_witness :
    CartInv [sampleLineB] ∧
      addItem (addItem [sampleLineB] productA) productA
        = [sampleLineB] ++ [{ product := productA, quantity := 2 }] :=
  ⟨by decide, (claim_C1_addItem [sampleLineB] productA (by decide)).2.2 (by decide)⟩

/-- C2: under the cart invariant, `updateQuantity pid q` sets the matching
line's quantity to `q` when the line exists and `1 ≤ q`; removes exactly that
line, leaving every other line in place, when the line exists and `q ≤ 0`; and
leaves the cart unchanged when no line for `pid` exists. -/
theorem claim_C2_updateQuantity (items : List CartItem) (pid : String) (q : Int)
    (hinv : CartInv items) :
    (∀ pre x post, items = pre ++ x :: post → x.product.id = pid →
      (1 ≤ q → updateQuantity items pid q = pre ++ { x with quantity := q } :: post) ∧
      (q ≤ 0 → updateQuantity items pid q = pre ++ post)) ∧
    ((∀ item ∈ items, item.product.id ≠ pid) →
      updateQuantity items pid q = items) := by
  constructor
  · intro pre x post hsplit hx
    subst hsplit
    obtain ⟨hpre, hpost⟩ := nodup_split_ids hinv.1
    have hqpre : ∀ y ∈ pre, 1 ≤ y.quantity := fun y hy => hinv.2 y (by simp [hy])
    have hqpost : ∀ y ∈ post, 1 ≤ y.quantity := fun y hy => hinv.2 y (by simp [hy])
    have hkey := updateQuantity_set pre post x pid q
      (fun y hy => hx ▸ hpre y hy) (fun y hy => hx ▸ hpost y hy) hx hqpre hqpost
    constructor
    · intro hq1
      rw [hkey, if_pos (lt_of_lt_of_le Int.zero_lt_one hq1)]
      simp
    · intro hq0
      rw [hkey, if_neg (by omega)]
      simp
  · intro h
    exact updateQuantity_absent items pid q h hinv.2

/-- Concrete instance of the C2 theorem: setting quantity 0 on the only line
removes it, and updating a non-existent product id is a no-op. -/
theorem claim_C2_updateQuantity_witness :
    CartInv [sampleLineB] ∧
      updateQuantity [sampleLineB] "b2" 0 = [] ∧
      updateQuantity [sampleLineB] "zz" 5 = [sampleLineB] := by
  refine ⟨by decide, ?_, ?_⟩
  · have h := ((claim_C2_updateQuantity [sampleLineB] "b2" 0 (by decide)).1
      [] sampleLineB [] rfl (by decide)).2 (by decide)
    simpa using h
  · exact (claim_C2_updateQuantity [sampleLineB] "zz" 5 (by decide)).2 (by decide)

theorem cartInv_map_bump (items : List CartItem) (p : Product) (h : CartInv items) :
    CartInv (items.map (fun item =>
      if item.product.id == p.id then { item with quantity := item.quantity + 1 }
      else item)) := by
  constructor
  · rw [List.map_map]
    have hcomp : ((fun item => item.product.id) ∘ (fun item =>
        if item.product.id == p.id then { item with quantity := item.quantity + 1 }
        else item)) = fun (item : CartItem) => item.product.id := by
      funext a
      by_cases hb : (a.product.id == p.id) = true <;> simp [Function.comp, hb]
    rw [hcomp]
    exact h.1
  · intro item hitem
    rw [List.mem_map] at hitem
    obtain ⟨a, ha, rfl⟩ := hitem
    have hq := h.2 a ha
    by_cases hb : (a.product.id == p.id) = true <;> simp [hb] <;> omega

theorem addItem_inv (items : List CartItem) (p : Product) (h : CartInv items) :
    CartInv (addItem items p) := by
  unfold addItem
  split
  · exact cartInv_map_bump items p h
  · next hc =>
    have habs : ∀ item ∈ items, item.product.id ≠ p.id := by
      intro y hy heq
      exact hc (by simp only [List.any_eq_true]; exact ⟨y, hy, by simp [heq]⟩)
    constructor
    · rw [List.map_append, List.nodup_append]
      refine ⟨h.1, by simp, ?_⟩
      intro a ha hb
      simp only [List.map_cons, List.map_nil, List.mem_singleton] at hb
      rw [List.mem_map] at ha
      obtain ⟨y, hy, rfl⟩ := ha
      exact habs y hy hb
    · intro item hitem
      rw [List.mem_append] at hitem
      rcases hitem with hitem | hitem
      · exact h.2 item hitem
      · simp only [List.mem_singleton] at hitem
        subst hitem
        exact le_refl 1

theorem updateQuantity_inv (items : List CartItem) (pid : String) (q : Int)
    (h : CartInv items) : CartInv (updateQuantity items pid q) := by
  unfold updateQuantity
  constructor
  · have hcomp : (items.map (fun item =>
        if item.product.id == pid then { item with quantity := q } else item)).map
          (fun item => item.product.id) = items.map (fun item => item.product.id) := by
      rw [List.map_map]
      apply List.map_congr_left
      intro a _
      by_cases hb : (a.product.id == pid) = true <;> simp [Function.comp, hb]
    have hsub := List.Sublist.map (fun (item : CartItem) => item.product.id)
      (List.filter_sublist (l := items.map (fun item =>
        if item.product.id == pid then { item with quantity := q } else item))
        (p := fun item => decide (0 < item.quantity)))
    rw [hcomp] at hsub
    exact List.Nodup.sublist hsub h.1
  · intro item hitem
    rw [List.mem_filter] at hitem
    have := hitem.2
    simp only [decide_eq_true_eq] at this
    omega

theorem cartInv_nil : CartInv [] := by decide

theorem runCartActions_inv (actions : List CartAction) :
    ∀ items, CartInv items → CartInv (runCartActions items actions) := by
  induction actions with
  | nil => intro items h; exact h
  | cons a t ih =>
    intro items h
    have hstep : CartInv (applyCartAction items a) := by
      cases a with
      | add p => exact addItem_inv items p h
      | update pid q => exact updateQuantity_inv items pid q h
      | reset => exact cartInv_nil
    simpa only [runCartActions, List.foldl_cons] using
      ih (applyCartAction items a) hstep

/-- C3: every cart state reachable from the empty cart by a finite sequence of
`addItem`, `updateQuantity` and `resetCart` calls has pairwise distinct product
identifiers and all quantities at least 1. -/
theorem claim_C3_reachable_inv (actions : List CartAction) :
    CartInv (runCartActions [] actions) :=
  runCartActions_inv actions [] cartInv_nil

theorem handleSubmit_cartItems (form : CheckoutForm) (items : List CartItem)
    (net : NetResult) : (handleSubmit form items net).cartItems = items := by
  unfold handleSubmit
  split
  · rfl
  · cases net with
    | success => rfl
    | failure m => rfl

theorem handleSubmit_success_callback (form : CheckoutForm) (items : List CartItem)
    (hguard : validationRejects form = false) :
    (handleSubmit form items NetResult.success).callbackInvocations
      = [{ fullName := jsTrim form.fullName, phone := jsTrim form.phone,
           address := jsTrim form.address, size := form.size }] := by
  have h := hguard
  unfold validationRejects at h
  unfold handleSubmit
  rw [h]
  simp

theorem handleSubmit_failure_form (form : CheckoutForm) (items : List CartItem)
    (m : Option String) (hguard : validationRejects form = false) :
    (handleSubmit form items (NetResult.failure m)).form
      = { form with error := some "Failed to submit order. Please try again.",
                    submitting := false } := by
  have h := hguard
  unfold validationRejects at h
  unfold handleSubmit
  rw [h]
  simp

theorem handleSubmit_success_form (form : CheckoutForm) (items : List CartItem)
    (hguard : validationRejects form = false) :
    (handleSubmit form items NetResult.success).form
      = { form with fullName := "", phone := "", address := "", size := defaultSize,
                    error := none, submitting := false } := by
  have h := hguard
  unfold validationRejects at h
  unfold handleSubmit
  rw [h]
  simp

/-- C4: the checkout submission handler never mutates the cart store: whatever
the network outcome, the cart lines after `handleSubmit` are exactly the lines
before; on success the caller-supplied `onSubmitOrder` callback is invoked once
with the trimmed submitted details; and the callback wired in `src/App.tsx`
performs no cart action at all. -/
theorem claim_C4_no_cart_mutation (form : CheckoutForm) (items : List CartItem)
    (net : NetResult) (hsize : jsTrim form.size = form.size) :
    (handleSubmit form items net).cartItems = items ∧
    (validationRejects form = false →
      (handleSubmit form items NetResult.success).callbackInvocations
        = [trimmedDetails form]) ∧
    (∀ d : CheckoutDetails, appOnSubmitOrder d = [] ∧
      ∀ it : List CartItem, runCartActions it (appOnSubmitOrder d) = it) := by
  refine ⟨handleSubmit_cartItems form items net, ?_, ?_⟩
  · intro hguard
    rw [handleSubmit_success_callback form items hguard]
    unfold trimmedDetails
    rw [hsize]
  · intro d
    exact ⟨rfl, fun it => rfl⟩

/-- Concrete instance of the C4 theorem: submitting the sample filled form over
a one-line cart leaves the line exactly in place and invokes the callback with
the trimmed details. -/
theorem claim_C4_no_cart_mutation_witness :
    jsTrim sampleFilledForm.size = sampleFilledForm.size ∧
    validationRejects sampleFilledForm = false ∧
    (handleSubmit sampleFilledForm [sampleLineB] NetResult.success).cartItems
      = [sampleLineB] ∧
    (handleSubmit sampleFilledForm [sampleLineB] NetResult.success).callbackInvocations
      = [trimmedDetails sampleFilledForm] := by
  have h := claim_C4_no_cart_mutation sampleFilledForm [sampleLineB]
    NetResult.success (by decide)
  exact ⟨by decide, by decide, h.1, h.2.1 (by decide)⟩

/-- C5 (divergence witness): the wired submission flow never writes the store's
confirmation banner — the only `setConfirmationMessage` call in the repository
passes `null` — so a successful submission resets the four form fields yet
shows no confirmation message, while the code's own comment before the
`onSubmitOrder` call reads "Show success message". A failed submission does
preserve the typed fields, set the error message and clear the submitting
flag. -/
theorem claim_C5_confirmation_never_shown :
    (∀ (f : CheckoutForm) (s : StoreState) (net : NetResult),
      (wiredSubmit f s net).2.confirmationMessage = s.confirmationMessage) ∧
    ((wiredSubmit sampleFilledForm sampleStore NetResult.success).1.fullName = "" ∧
      (wiredSubmit sampleFilledForm sampleStore NetResult.success).1.phone = "" ∧
      (wiredSubmit sampleFilledForm sampleStore NetResult.success).1.address = "" ∧
      (wiredSubmit sampleFilledForm sampleStore NetResult.success).1.size = defaultSize ∧
      confirmationShown (wiredSubmit sampleFilledForm sampleStore NetResult.success).2
        = false) ∧
    ((wiredSubmit sampleFilledForm sampleStore (NetResult.failure none)).1.fullName
        = sampleFilledForm.fullName ∧
      (wiredSubmit sampleFilledForm sampleStore (NetResult.failure none)).1.phone
        = sampleFilledForm.phone ∧
      (wiredSubmit sampleFilledForm sampleStore (NetResult.failure none)).1.address
        = sampleFilledForm.address ∧
      (wiredSubmit sampleFilledForm sampleStore (NetResult.failure none)).1.size
        = sampleFilledForm.size ∧
      (wiredSubmit sampleFilledForm sampleStore (NetResult.failure none)).1.error
        = some "Failed to submit order. Please try again." ∧
      (wiredSubmit sampleFilledForm sampleStore (NetResult.failure none)).1.submitting
        = false) := by
  refine ⟨?_, by decide, by decide⟩
  intro f s net
  rfl

/-- C6: when any of the four checkout fields trims to the empty string,
submission is rejected locally: the validation error is set, no network
request is issued, and the field values and the cart are unchanged. -/
theorem claim_C6_validation_guard (form : CheckoutForm) (items : List CartItem)
    (net : NetResult)
    (h : jsTrim form.fullName = "" ∨ jsTrim form.phone = "" ∨
      jsTrim form.address = "" ∨ jsTrim form.size = "") :
    (handleSubmit form items net).form.fullName = form.fullName ∧
    (handleSubmit form items net).form.phone = form.phone ∧
    (handleSubmit form items net).form.address = form.address ∧
    (handleSubmit form items net).form.size = form.size ∧
    (handleSubmit form items net).form.error
      = some "Please fill in all required details before submitting." ∧
    (handleSubmit form items net).networkCalled = false ∧
    (handleSubmit form items net).payload = none ∧
    (handleSubmit form items net).cartItems = items := by
  have hb : (jsTrim form.fullName == "" || jsTrim form.phone == "" ||
      jsTrim form.address == "" || jsTrim form.size == "") = true := by
    rcases h with h | h | h | h <;> simp [h]
  unfold handleSubmit
  rw [hb]
  simp

/-- Concrete instance of the C6 theorem: a whitespace-only full name blocks the
network call and leaves the typed values in place. -/
theorem claim_C6_validation_guard_witness :
    jsTrim "  " = "" ∧
    (handleSubmit { sampleFilledForm with fullName := "  " } [sampleLineB]
        NetResult.success).networkCalled = false ∧
    (handleSubmit { sampleFilledForm with fullName := "  " } [sampleLineB]
        NetResult.success).form.phone = sampleFilledForm.phone := by
  have h := claim_C6_validation_guard { sampleFilledForm with fullName := "  " }
    [sampleLineB] NetResult.success (Or.inl (by decide))
  exact ⟨by decide, h.2.2.2.2.2.1, h.2.1⟩

/-- C7 (counterexample): on a failed order submission whose backend supplies
the message "Out of stock", the checkout flow displays the generic message,
not the backend message. -/
theorem claim_C7_counterexample :
    (handleSubmit sampleFilledForm [sampleLineB]
        (NetResult.failure (some "Out of stock"))).form.error
      = some "Failed to submit order. Please try again." ∧
    ¬ (handleSubmit sampleFilledForm [sampleLineB]
        (NetResult.failure (some "Out of stock"))).form.error
      = some "Out of stock" := by
  constructor
  · decide
  · decide

/-- C7 (amended): a failed order submission always displays the fixed generic
message, whatever the backend says; the verbatim-backend-message behaviour
belongs to the admin add-product flow, whose displayed error is the backend
message when available and non-empty and the generic fallback otherwise. -/
theorem claim_C7_amended_error_messages (form : CheckoutForm) (items : List CartItem)
    (m : Option String) (hguard : validationRejects form = false) :
    (handleSubmit form items (NetResult.failure m)).form.error
      = some "Failed to submit order. Please try again." ∧
    (∀ msg : String, msg ≠ "" → addProductErrorMessage (some msg) = msg) ∧
    addProductErrorMessage none = "Failed to add product" := by
  refine ⟨?_, ?_, rfl⟩
  · rw [handleSubmit_failure_form form items m hguard]
  · intro msg hmsg
    simp [addProductErrorMessage, hmsg]

/-- Concrete instance showing the amended C7 at work: the checkout error is the
generic message and the admin flow passes a backend message through. -/
theorem claim_C7_amended_error_messages_witness :
    validationRejects sampleFilledForm = false ∧
    (handleSubmit sampleFilledForm [] (NetResult.failure (some "boom"))).form.error
      = some "Failed to submit order. Please try again." ∧
    addProductErrorMessage (some "boom") = "boom" := by
  have h := claim_C7_amended_error_messages sampleFilledForm [] (some "boom") (by decide)
  exact ⟨by decide, h.1, h.2.1 "boom" (by decide)⟩

theorem charsStartsWith_iff (p : List Char) : ∀ l : List Char,
    charsStartsWith p l = true ↔ p <+: l := by
  induction p with
  | nil =>
    intro l
    simp only [charsStartsWith, true_iff]
    exact ⟨l, rfl⟩
  | cons a as ih =>
    intro l
    cases l with
    | nil =>
      simp [charsStartsWith, List.prefix_nil]
    | cons b bs =>
      simp [charsStartsWith, List.cons_prefix_cons, ih bs, Bool.and_eq_true, beq_iff_eq]

theorem charsIncludes_iff (p : List Char) : ∀ l : List Char,
    charsIncludes p l = true ↔ p <:+: l := by
  intro l
  induction l with
  | nil =>
    simp [charsIncludes, charsStartsWith_iff, List.prefix_nil, List.infix_nil]
  | cons b bs ih =>
    simp [charsIncludes, Bool.or_eq_true, charsStartsWith_iff, ih, List.infix_cons_iff]

theorem string_mk_eq_empty_iff (l : List Char) : String.mk l = "" ↔ l = [] := by
  constructor
  · intro h
    have h2 := congrArg String.data h
    simpa using h2
  · intro h
    subst h
    rfl

theorem toLowerCase_eq_empty_iff (s : String) : toLowerCase s = "" ↔ s = "" := by
  obtain ⟨data⟩ := s
  unfold toLowerCase
  rw [string_mk_eq_empty_iff]
  simp only [List.map_eq_nil_iff]
  exact (string_mk_eq_empty_iff data).symm

/-- C8: a product is in the filtered catalog exactly when it is in the product
list, the selected category is the wildcard "All" or matches the product's
category exactly, and the trimmed search term is empty or a case-insensitive
substring of the product's name or description. The filter is a pure function
of its three inputs. -/
theorem claim_C8_filtered_catalog (products : List Product)
    (activeCategory searchTerm : String) (p : Product) :
    p ∈ filteredProducts products activeCategory searchTerm ↔
      p ∈ products ∧ MatchesSpecFilter activeCategory searchTerm p := by
  unfold filteredProducts MatchesSpecFilter CaseInsensitiveSubstring stringIncludes
  rw [List.mem_filter]
  simp only [Bool.and_eq_true, Bool.or_eq_true, beq_iff_eq, charsIncludes_iff,
    toLowerCase_eq_empty_iff]
  tauto

/-- Concrete instance of the C8 theorem: with category "Streetwear" and search
term " JACKET ", the jacket in Streetwear passes the filter and the scarf in
Evening Luxe does not. -/
theorem claim_C8_filtered_catalog_witness :
    productA ∈ filteredProducts [productA, productB] "Streetwear" " JACKET " ∧
    productB ∉ filteredProducts [productA, productB] "Streetwear" " JACKET " := by
  constructor
  · exact (claim_C8_filtered_catalog [productA, productB] "Streetwear" " JACKET "
      productA).mpr ⟨by decide, by decide⟩
  · intro hmem
    have h := (claim_C8_filtered_catalog [productA, productB] "Streetwear" " JACKET "
      productB).mp hmem
    exact absurd h.2 (by decide)

/-- C9: for the detail overlay, a timer tick while open and autoplaying with
more than one image advances the active index cyclically; with 3 images the
open-tick-tick-tick trace visits indices 1, 2, 0; every manual navigation
clears the autoplay flag; reopening resets to index 0 with autoplay on; and
with at most one image a tick changes nothing and the navigation controls are
not rendered. The tick event stands for one firing of the 4000 ms interval
timer. -/
theorem claim_C9_carousel (n : Nat) (s : ModalState) :
    (s.isOpen = true → s.isAutoplaying = true → 1 < n →
      modalStep n s ModalEvent.tick
        = { s with activeIndex := (s.activeIndex + 1) % n }) ∧
    (runModalEvents 3 s [ModalEvent.openModal, ModalEvent.tick]
        = { activeIndex := 1, isAutoplaying := true, isOpen := true } ∧
      runModalEvents 3 s [ModalEvent.openModal, ModalEvent.tick, ModalEvent.tick]
        = { activeIndex := 2, isAutoplaying := true, isOpen := true } ∧
      runModalEvents 3 s
          [ModalEvent.openModal, ModalEvent.tick, ModalEvent.tick, ModalEvent.tick]
        = { activeIndex := 0, isAutoplaying := true, isOpen := true }) ∧
    ((modalStep n s ModalEvent.nextSlide).isAutoplaying = false ∧
      (modalStep n s ModalEvent.prevSlide).isAutoplaying = false ∧
      ∀ i, (modalStep n s (ModalEvent.goToSlide i)).isAutoplaying = false) ∧
    ((modalStep n s ModalEvent.openModal).activeIndex = 0 ∧
      (modalStep n s ModalEvent.openModal).isAutoplaying = true) ∧
    (n ≤ 1 → modalStep n s ModalEvent.tick = s ∧ carouselControlsShown n = false) := by
  refine ⟨?_, ⟨by simp [runModalEvents, modalStep], by simp [runModalEvents, modalStep],
    by simp [runModalEvents, modalStep]⟩, ⟨rfl, rfl, fun i => rfl⟩, ⟨rfl, rfl⟩, ?_⟩
  · intro h1 h2 h3
    simp [modalStep, h1, h2, h3]
  · intro h
    have hd : decide (1 < n) = false := decide_eq_false (by omega)
    constructor
    · simp [modalStep, hd]
    · exact decide_eq_false (by omega)

/-- Concrete instance of the C9 theorem: one tick advances an open autoplaying
3-image overlay from index 0 to 1; with a single image a tick is a no-op and
the controls are hidden; reopening after manual navigation resets the state. -/
theorem claim_C9_carousel_witness :
    modalStep 3 { activeIndex := 0, isAutoplaying := true, isOpen := true }
        ModalEvent.tick
      = { activeIndex := (0 + 1) % 3, isAutoplaying := true, isOpen := true } ∧
    modalStep 1 { activeIndex := 0, isAutoplaying := true, isOpen := true }
        ModalEvent.tick
      = { activeIndex := 0, isAutoplaying := true, isOpen := true } ∧
    carouselControlsShown 1 = false ∧
    runModalEvents 3 { activeIndex := 2, isAutoplaying := false, isOpen := false }
        [ModalEvent.openModal, ModalEvent.tick, ModalEvent.tick, ModalEvent.tick]
      = { activeIndex := 0, isAutoplaying := true, isOpen := true } := by
  have h3 := claim_C9_carousel 3
    { activeIndex := 0, isAutoplaying := true, isOpen := true }
  have h1 := claim_C9_carousel 1
    { activeIndex := 0, isAutoplaying := true, isOpen := true }
  have hre := claim_C9_carousel 3
    { activeIndex := 2, isAutoplaying := false, isOpen := false }
  exact ⟨h3.1 rfl rfl (by decide), (h1.2.2.2.2 (by decide)).1,
    (h1.2.2.2.2 (by decide)).2, hre.2.1.2.2⟩

theorem sizes_getD_mem (i : Nat) : sizes.getD i defaultSize ∈ sizes := by
  rcases Nat.lt_or_ge i sizes.length with hi | hi
  · rw [List.getD_eq_getElem sizes defaultSize hi]
    exact List.getElem_mem hi
  · rw [List.getD_eq_getElem?_getD, List.getElem?_eq_none hi]
    decide

theorem handleSubmit_form_size (f : CheckoutForm) (items : List CartItem)
    (net : NetResult) :
    (handleSubmit f items net).form.size = f.size ∨
      (handleSubmit f items net).form.size = defaultSize := by
  unfold handleSubmit
  split
  · exact Or.inl rfl
  · cases net with
    | success => exact Or.inr rfl
    | failure m => exact Or.inl rfl

theorem applyFormEvent_size_mem (f : CheckoutForm) (e : FormEvent)
    (h : f.size ∈ sizes) : (applyFormEvent f e).size ∈ sizes := by
  cases e with
  | setFullName s => exact h
  | setPhone s => exact h
  | setAddress s => exact h
  | selectSize i => exact sizes_getD_mem i
  | submit items net =>
    rcases handleSubmit_form_size f items net with hs | hs
    · simpa [applyFormEvent, hs] using h
    · simp [applyFormEvent, hs]
      decide

theorem runFormEvents_size_mem (events : List FormEvent) :
    ∀ f : CheckoutForm, f.size ∈ sizes → (runFormEvents f events).size ∈ sizes := by
  induction events with
  | nil => intro f h; exact h
  | cons e t ih =>
    intro f h
    simpa only [runFormEvents, List.foldl_cons] using
      ih (applyFormEvent f e) (applyFormEvent_size_mem f e h)

/-- C10: in every checkout form state reachable from the initial state, the
size field is one of the five fixed options (it starts at "M" and is only ever
replaced by a rendered option or the post-success default), so the size never
trims to empty and a validation rejection can only come from full name, phone
or address being empty or whitespace-only. -/
theorem claim_C10_size_safety (events : List FormEvent) :
    initialForm.size = "M" ∧
    (runFormEvents initialForm events).size ∈ sizes ∧
    jsTrim (runFormEvents initialForm events).size ≠ "" ∧
    (validationRejects (runFormEvents initialForm events) = true →
      jsTrim (runFormEvents initialForm events).fullName = "" ∨
      jsTrim (runFormEvents initialForm events).phone = "" ∨
      jsTrim (runFormEvents initialForm events).address = "") := by
  have hmem : (runFormEvents initialForm events).size ∈ sizes :=
    runFormEvents_size_mem events initialForm (by decide)
  have htrim : jsTrim (runFormEvents initialForm events).size ≠ "" := by
    have hall : ∀ s ∈ sizes, jsTrim s ≠ "" := by decide
    exact hall _ hmem
  refine ⟨rfl, hmem, htrim, ?_⟩
  intro hrej
  unfold validationRejects at hrej
  simp only [Bool.or_eq_true, beq_iff_eq] at hrej
  rcases hrej with ((h | h) | h) | h
  · exact Or.inl h
  · exact Or.inr (Or.inl h)
  · exact Or.inr (Or.inr h)
  · exact absurd h htrim

/-- Concrete instance of the C10 theorem: the freshly mounted form (empty text
fields, size "M") is rejected, and the rejection is due to one of the three
text fields, never the size. -/
theorem claim_C10_size_safety_witness :
    validationRejects (runFormEvents initialForm []) = true ∧
      (jsTrim (runFormEvents initialForm []).fullName = "" ∨
        jsTrim (runFormEvents initialForm []).phone = "" ∨
        jsTrim (runFormEvents initialForm []).address = "") :=
  ⟨by decide, (claim_C10_size_safety []).2.2.2 (by decide)⟩
